import Mathlib

/-!
Shallow embedding of the tile-reconstruction engine of the `grabs` package
(`grabs/untiler.py` and the relevant parts of `grabs/resource.py`), with
theorems checking the natural-language specification against it.

Modelling conventions:
* Python machine integers are embedded as `ℕ`/`ℤ` (no overflow is possible at
  the sizes involved; Python ints are unbounded anyway).
* `width()`/`height()` use Python float division followed by `int(...)`;
  for the magnitudes involved (well below 2^53) `w / 2**d` is an exactly
  representable float, so `int(w / 2**d)` is exactly `w / 2^d` in `ℕ`.
  Likewise `math.ceil(x / t)` is the exact ceiling division for these sizes.
* `math.floor(math.log2(max(w,h)/tile_size))` is embedded as the exact
  `Int.log 2` of the rational `max(w,h)/tile_size`, computed by the
  integer-arithmetic function `flog2` below.
* The network and PIL are replaced by an explicit per-coordinate outcome
  function `outcome : ℕ × ℕ → FetchOutcome`: `ok t` means the fetch and the
  decode both succeeded and produced a raster tile `t`; `failed m` means
  `requests.get`/`raise_for_status` or `Image.open` raised (message `m`);
  `pending` means the worker never completes (a fetch that never returns).
* A Python `dict` is an insertion-ordered association list with distinct
  keys; `tile_matrix` is built in submission order, which is column-major.
* Exceptions are reified: a function that can raise returns `Except PyError`
  or an `ExecResult`; a call that blocks forever is `ExecResult.blocked`.
* A PIL raster operation `canvas.paste(tile, pos)` is recorded as a
  `PasteOp` with source offset `(0, 0)` (PIL pastes the whole tile); a
  crop-then-paste would be a `PasteOp` with a nonzero source offset.  The
  final raster is determined by the list of such operations, so raster
  equality is modelled as equality of operation lists.
-/

namespace Grabs

/-- A decoded raster tile: its pixel dimensions and its (abstract) pixel
payload, standing for the image data decoded by `Image.open`. -/
structure Tile where
  width : ℕ
  height : ℕ
  data : List ℕ
deriving DecidableEq

/-- Eventual outcome of one tile's fetch-and-decode task
(`_UntileQuery.fetch_tile` followed by `Image.open` in the result loop). -/
inductive FetchOutcome where
  | ok (t : Tile)
  | failed (msg : String)
  | pending
deriving DecidableEq

/-- True exactly when the task raised (fetch or decode failure). -/
def FetchOutcome.is_failed : FetchOutcome → Bool
  | .failed _ => true
  | _ => false

/-- True exactly when the task completed with a decoded tile. -/
def FetchOutcome.is_ok : FetchOutcome → Bool
  | .ok _ => true
  | _ => false

/-- The Python exceptions the embedded code can raise. -/
inductive PyError where
  | valueError (msg : String)
  | fetchError (msg : String)
  | keyError (key : String)
deriving DecidableEq

/-- One raster-composition action: paste `tile`, starting at source pixel
offset `src_off` inside the tile, at destination position `pos` on the
canvas.  `untiler.py` only ever calls `untiled.paste(tile, cursor)`, which
is `src_off = (0, 0)`. -/
structure PasteOp where
  index : ℕ × ℕ
  src_off : ℕ × ℕ
  pos : ℤ × ℤ
  tile : Tile
deriving DecidableEq

/-- The composited output raster: the `Image.new` color mode, the canvas
dimensions, and the sequence of paste operations applied to it. -/
structure Composited where
  mode : String
  dims : ℕ × ℕ
  ops : List PasteOp
deriving DecidableEq

/-- Result of one reconstruction call: it can block forever (a
`future.result()` on a task that never completes), raise, or return the
composited raster. -/
inductive ExecResult where
  | blocked
  | raised (e : PyError)
  | image (c : Composited)
deriving DecidableEq

/-- True exactly when the call returned a composited raster. -/
def ExecResult.returns_image : ExecResult → Bool
  | .image _ => true
  | _ => false

/-- True exactly when the call re-raised a per-tile fetch/decode failure. -/
def ExecResult.raised_fetch : ExecResult → Bool
  | .raised (.fetchError _) => true
  | _ => false

/-- Ceiling division on naturals, the exact value of Python
`math.ceil(a / b)` for `b > 0` at the sizes involved. -/
def ceil_div (a b : ℕ) : ℕ := (a + b - 1) / b

/-- Fuel-driven floor base-2 logarithm, structurally recursive so that the
kernel can evaluate it on concrete inputs; with enough fuel it equals
`Nat.log 2` (theorem `log2_fuel_eq`). -/
def log2_fuel : ℕ → ℕ → ℕ
  | 0, _ => 0
  | f + 1, n => if n ≤ 1 then 0 else log2_fuel f (n / 2) + 1

/-- Fuel-driven ceiling base-2 logarithm; with enough fuel it equals
`Nat.clog 2` (theorem `clog2_fuel_eq`). -/
def clog2_fuel : ℕ → ℕ → ℕ
  | 0, _ => 0
  | f + 1, n => if n ≤ 1 then 0 else clog2_fuel f ((n + 1) / 2) + 1

/-- Executable `Nat.log 2`. -/
def nat_log2 (n : ℕ) : ℕ := log2_fuel n n

/-- Executable `Nat.clog 2`. -/
def nat_clog2 (n : ℕ) : ℕ := clog2_fuel n n

/-- Exact integer value of Python `math.floor(math.log2(a / b))` for
`a, b > 0`, i.e. `Int.log 2 (a / b : ℚ)` computed in integer arithmetic. -/
def flog2 (a b : ℕ) : ℤ :=
  if b ≤ a then (nat_log2 (a / b) : ℤ) else -(nat_clog2 (ceil_div b a) : ℤ)

/-- The descriptor fields of `resource.TiledImage` that the untiler reads
(the scraping-related fields are irrelevant to reconstruction). -/
structure TiledImage where
  tiles_url : String
  format : String
  width : ℕ
  height : ℕ
  tile_size : ℕ
  overlap : ℕ
deriving DecidableEq

/-- `TiledImage.max_zoom`: `10 + math.floor(math.log2(max(width, height) /
tile_size))` from `resource.py`. -/
def TiledImage.max_zoom (img : TiledImage) : ℤ :=
  10 + flog2 (max img.width img.height) img.tile_size

/-- The zoom level actually used by `TiledImage.content`:
`zoom_level = zoom_level or self.max_zoom`, where Python `or` falls through
on the falsy values `None` and `0`. -/
def TiledImage.content_zoom (img : TiledImage) (zoom_level : Option ℤ) : ℤ :=
  match zoom_level with
  | none => img.max_zoom
  | some z => if z = 0 then img.max_zoom else z

/-- `untiler._UntileQuery` (the frozen dataclass), after its
`__post_init__` validation has passed. -/
structure UntileQuery where
  image : TiledImage
  zoom_level : ℤ
deriving DecidableEq

/-- Construction of `_UntileQuery`, including the `__post_init__` check
that raises `ValueError` when the requested zoom exceeds `max_zoom`. -/
def mkUntileQuery (img : TiledImage) (zoom_level : ℤ) : Except PyError UntileQuery :=
  if img.max_zoom < zoom_level then
    .error (.valueError ("Zoom level (" ++ toString zoom_level ++
      ")is greater than the maximum possible zoom (" ++ toString img.max_zoom ++
      ") for this image."))
  else
    .ok ⟨img, zoom_level⟩

/-- `_UntileQuery.width`: `int(image.width / 2 ** (max_zoom - zoom_level))`.
The exponent is non-negative for every constructible query. -/
def UntileQuery.width (q : UntileQuery) : ℕ :=
  q.image.width / 2 ^ (q.image.max_zoom - q.zoom_level).toNat

/-- `_UntileQuery.height`: `int(image.height / 2 ** (max_zoom - zoom_level))`. -/
def UntileQuery.height (q : UntileQuery) : ℕ :=
  q.image.height / 2 ^ (q.image.max_zoom - q.zoom_level).toNat

/-- `n_columns = math.ceil(zl_width / tile_size)` from
`_UntileQuery.tiles_urls`. -/
def UntileQuery.n_columns (q : UntileQuery) : ℕ :=
  ceil_div q.width q.image.tile_size

/-- `n_rows = math.ceil(zl_height / tile_size)` from
`_UntileQuery.tiles_urls`. -/
def UntileQuery.n_rows (q : UntileQuery) : ℕ :=
  ceil_div q.height q.image.tile_size

/-- The `url_template` helper inside `_UntileQuery.tiles_urls`. -/
def url_template (root : String) (zl : ℤ) (col row : ℕ) (frmt : String) : String :=
  root ++ "/" ++ toString zl ++ "/" ++ toString col ++ "_" ++ toString row ++ "." ++ frmt

/-- The tile coordinates in the order the `tiles_urls` dict is populated:
column-major (outer loop over columns, inner loop over rows). -/
def gridCoords (c r : ℕ) : List (ℕ × ℕ) :=
  (List.range c).flatMap fun col => (List.range r).map fun row => (col, row)

/-- `_UntileQuery.tiles_urls`: the insertion-ordered `tile_matrix` dict of
per-coordinate tile URLs. -/
def UntileQuery.tiles_urls (q : UntileQuery) : List ((ℕ × ℕ) × String) :=
  (gridCoords q.n_columns q.n_rows).map fun i =>
    (i, url_template q.image.tiles_url q.zoom_level i.1 i.2 q.image.format)

/-- The requested tile coordinates, in submission order. -/
def UntileQuery.tile_indices (q : UntileQuery) : List (ℕ × ℕ) :=
  q.tiles_urls.map Prod.fst

/-- True exactly when `tiles_urls` executes its `warnings.warn` call:
`zl_width < 1 or zl_height < 1`. -/
def UntileQuery.tiles_urls_warns (q : UntileQuery) : Bool :=
  decide (q.width < 1) || decide (q.height < 1)

/-- Outcome of the result-collection loop `for future in futures: tile =
future.result()` in `Untiler.__exec_multithread`: it blocks forever on the
first never-completing future, re-raises the first failed future's
exception, and otherwise yields the decoded `tile_matrix` in submission
order. -/
inductive GatherResult where
  | blocked
  | raised (e : PyError)
  | ok (tm : List ((ℕ × ℕ) × Tile))
deriving DecidableEq

/-- The result-collection loop itself.  `future.result()` is called with no
timeout: a pending future blocks the loop, a failed future re-raises. -/
def gather : List ((ℕ × ℕ) × FetchOutcome) → GatherResult
  | [] => .ok []
  | (i, .ok t) :: rest =>
    match gather rest with
    | .ok tm => .ok ((i, t) :: tm)
    | r => r
  | (_, .failed m) :: _ => .raised (.fetchError m)
  | (_, .pending) :: _ => .blocked

/-- The `MODES_FORMATS` dict of `untiler.py`; a missing key raises
`KeyError`. -/
def MODES_FORMATS (frmt : String) : Option String :=
  if frmt = "jpg" then some "RGB"
  else if frmt = "jpeg" then some "RGB"
  else if frmt = "png" then some "RGBA"
  else none

/-- `max([idx[1] for idx in tile_matrix.keys()])`; Python `max` raises
`ValueError` on an empty sequence, hence the `Option`. -/
def max_rows_idx (tm : List ((ℕ × ℕ) × Tile)) : Option ℕ :=
  (tm.map fun p => p.1.2).max?

/-- The compositing loop of `Untiler.__exec_multithread`: paste each tile
at the running cursor, then advance the cursor — down the column
(`y + h - overlap`) while below the last row, and to the next column
(`x + w - overlap`, `y = 0`) on the last row.  Cursor coordinates are
integers (Python ints may go negative when `overlap` exceeds a tile
dimension). -/
def compositeLoop (overlap : ℤ) (maxRow : ℕ) :
    List ((ℕ × ℕ) × Tile) → ℤ × ℤ → List PasteOp
  | [], _ => []
  | (idx, t) :: rest, cursor =>
    ⟨idx, (0, 0), cursor, t⟩ ::
      compositeLoop overlap maxRow rest
        ((if idx.2 = maxRow then cursor.1 + (t.width : ℤ) - overlap else cursor.1),
         (if idx.2 < maxRow then cursor.2 + (t.height : ℤ) - overlap else 0))

/-- Running vertical cursor offset: the sum, over the rows `a ≤ s < b` of
column `c`, of each tile's height minus the overlap.  This is where the
compositing cursor actually ends up (it is not `r * tileSize`). -/
def ysum (o : ℤ) (f : ℕ × ℕ → Tile) (c a b : ℕ) : ℤ :=
  ((List.range' a (b - a)).map fun s => ((f (c, s)).height : ℤ) - o).sum

/-- Running horizontal cursor offset: the sum, over the columns
`a ≤ s < b`, of the width of that column's last-row tile (row `mr`) minus
the overlap. -/
def xsum (o : ℤ) (f : ℕ × ℕ → Tile) (mr a b : ℕ) : ℤ :=
  ((List.range' a (b - a)).map fun s => ((f (s, mr)).width : ℤ) - o).sum

/-- `Untiler.__exec_multithread`, with the network abstracted by
`outcome`: collect every future's result (in submission order), look up the
canvas mode in `MODES_FORMATS`, allocate the canvas at the scaled
dimensions, compute `max_rows_idx`, and run the compositing loop from
cursor `(0, 0)`. -/
def Untiler.exec_multithread (q : UntileQuery) (outcome : ℕ × ℕ → FetchOutcome) :
    ExecResult :=
  match gather (q.tiles_urls.map fun p => (p.1, outcome p.1)) with
  | .blocked => .blocked
  | .raised e => .raised e
  | .ok tm =>
    match MODES_FORMATS q.image.format with
    | none => .raised (.keyError q.image.format)
    | some mode =>
      match max_rows_idx tm with
      | none => .raised (.valueError "max() arg is an empty sequence")
      | some mr =>
        .image ⟨mode, (q.width, q.height),
          compositeLoop (q.image.overlap : ℤ) mr tm (0, 0)⟩

/-- `Untiler.untile`: construct the query (whose `__post_init__` may raise
`ValueError` before any fetch is submitted), then run
`__exec_multithread`. -/
def Untiler.untile (img : TiledImage) (zoom_level : ℤ)
    (outcome : ℕ × ℕ → FetchOutcome) : ExecResult :=
  match mkUntileQuery img zoom_level with
  | .error e => .raised e
  | .ok q => Untiler.exec_multithread q outcome

/-- Look up the paste operation recorded for a given tile coordinate. -/
def find_op (r : ExecResult) (i : ℕ × ℕ) : Option PasteOp :=
  match r with
  | .image c => c.ops.find? fun op => decide (op.index = i)
  | _ => none

/-- The success ratio as the spec defines it (`tilesSucceeded /
tilesRequested`); the code itself never computes such a ratio, this
definition follows the spec's words for comparison. -/
def spec_success_ratio (q : UntileQuery) (outcome : ℕ × ℕ → FetchOutcome) : ℚ :=
  ((q.tile_indices.countP fun i => (outcome i).is_ok : ℕ) : ℚ) /
  (q.tile_indices.length : ℚ)

/-- The compositing behaviour asserted by the spec (claim C2, following the
spec's words): every recorded paste crops the tile by `overlap` on the left
exactly when `c > 0` and on the top exactly when `r > 0`, and lands at
destination offset `(c * tileSize, r * tileSize)`. -/
def claimedCropPaste (img : TiledImage) (c : Composited) : Prop :=
  ∀ op ∈ c.ops,
    op.src_off = ((if 0 < op.index.1 then img.overlap else 0),
                  (if 0 < op.index.2 then img.overlap else 0)) ∧
    op.pos = ((op.index.1 * img.tile_size : ℤ), (op.index.2 * img.tile_size : ℤ))

/-! Concrete fixtures used by witnesses and counterexamples.  The derived
`max_zoom` values: `img1 ↦ 10`, `img2 ↦ 11`, `img3 ↦ 11`, `img4000 ↦ 13`,
`img2048 ↦ 13`. -/

/-- A 1×1-pixel image with 1-pixel tiles: a single-tile grid at zoom 10. -/
def img1 : TiledImage := ⟨"http://tiles", "jpg", 1, 1, 1, 0⟩

/-- A 20×20-pixel image with 10-pixel tiles and overlap 1: a 2×2 grid at
zoom 11. -/
def img2 : TiledImage := ⟨"http://tiles", "jpg", 20, 20, 10, 1⟩

/-- A 10×20-pixel image with 10-pixel tiles: a 1×2 grid at zoom 11. -/
def img3 : TiledImage := ⟨"http://tiles", "jpg", 10, 20, 10, 0⟩

/-- The spec's §8 fixture: `width=4000, height=3000, tileSize=256`. -/
def img4000 : TiledImage := ⟨"http://tiles", "jpg", 4000, 3000, 256, 1⟩

/-- A power-of-two fixture: `2048×1536`, 256-pixel tiles. -/
def img2048 : TiledImage := ⟨"http://tiles", "jpg", 2048, 1536, 256, 1⟩

/-- A decoded 10×10 tile. -/
def t10 : Tile := ⟨10, 10, [7]⟩

/-- A decoded 12×10 tile (wider than `t10`). -/
def t12 : Tile := ⟨12, 10, [7]⟩

/-- A decoded 1×1 tile. -/
def t1 : Tile := ⟨1, 1, [7]⟩

/-- Every tile fetch succeeds with `t10`. -/
def outcome_allok : ℕ × ℕ → FetchOutcome := fun _ => .ok t10

/-- The fetch for tile `(0,0)` fails; every other fetch succeeds. -/
def outcome_one_failed : ℕ × ℕ → FetchOutcome :=
  fun i => if i = (0, 0) then .failed "boom" else .ok t10

/-- The fetch for tile `(0,1)` fails; every other fetch succeeds. -/
def outcome_last_failed : ℕ × ℕ → FetchOutcome :=
  fun i => if i = (0, 1) then .failed "net" else .ok t10

/-- Every fetch succeeds, but tile `(0,1)` decodes to the wider `t12`. -/
def outcome_wider01 : ℕ × ℕ → FetchOutcome :=
  fun i => if i = (0, 1) then .ok t12 else .ok t10

/-- Same grid outcomes as `outcome_allok`, differing only at the
off-grid coordinate `(5,5)`. -/
def outcome_offgrid : ℕ × ℕ → FetchOutcome :=
  fun i => if i = (5, 5) then .failed "late" else .ok t10

/-- The composited raster produced for `img2` at zoom 11 when every tile
is `t10` (cursor positions, no cropping). -/
def comp2 : Composited :=
  ⟨"RGB", (20, 20),
    [⟨(0, 0), (0, 0), (0, 0), t10⟩, ⟨(0, 1), (0, 0), (0, 9), t10⟩,
     ⟨(1, 0), (0, 0), (9, 0), t10⟩, ⟨(1, 1), (0, 0), (9, 9), t10⟩]⟩

/-- The composited raster produced for `img1` at zoom 10 from its single
tile `t1`. -/
def comp1 : Composited := ⟨"RGB", (1, 1), [⟨(0, 0), (0, 0), (0, 0), t1⟩]⟩

/-! Helper lemmas (shared between claims; none of them is a claim
theorem). -/

/-- With enough fuel, `log2_fuel` computes `Nat.log 2`. -/
theorem log2_fuel_eq (f n : ℕ) (h : n ≤ f) : log2_fuel f n = Nat.log 2 n := by
  induction f generalizing n with
  | zero =>
    have h0 : n = 0 := Nat.le_zero.1 h
    subst h0
    simp [log2_fuel]
  | succ f ih =>
    by_cases h1 : n ≤ 1
    · have h0 : Nat.log 2 n = 0 := by
        rcases Nat.le_one_iff_eq_zero_or_eq_one.1 h1 with rfl | rfl
        · exact Nat.log_zero_right 2
        · exact Nat.log_one_right 2
      simp [log2_fuel, h1, h0]
    · push_neg at h1
      have h2 : 2 ≤ n := h1
      rw [log2_fuel, if_neg (not_le.2 h1), ih (n / 2) (by omega),
        Nat.log_of_one_lt_of_le one_lt_two h2]

/-- With enough fuel, `clog2_fuel` computes `Nat.clog 2`. -/
theorem clog2_fuel_eq (f n : ℕ) (h : n ≤ f) : clog2_fuel f n = Nat.clog 2 n := by
  induction f generalizing n with
  | zero =>
    have h0 : n = 0 := Nat.le_zero.1 h
    subst h0
    simp [clog2_fuel]
  | succ f ih =>
    by_cases h1 : n ≤ 1
    · simp [clog2_fuel, h1, Nat.clog_of_right_le_one h1]
    · push_neg at h1
      have h2 : 2 ≤ n := h1
      have hrec := Nat.clog_of_two_le one_lt_two h2
      rw [clog2_fuel, if_neg (not_le.2 h1), ih ((n + 1) / 2) (by omega), hrec]
      congr 2

/-- `nat_log2` is `Nat.log 2`. -/
theorem nat_log2_eq (n : ℕ) : nat_log2 n = Nat.log 2 n :=
  log2_fuel_eq n n le_rfl

/-- `nat_clog2` is `Nat.clog 2`. -/
theorem nat_clog2_eq (n : ℕ) : nat_clog2 n = Nat.clog 2 n :=
  clog2_fuel_eq n n le_rfl

/-- The floor of a natural quotient computed in an ordered field is
natural division. -/
theorem floor_div_cast (α : Type) [LinearOrderedSemifield α] [FloorSemiring α]
    (a b : ℕ) : ⌊(a : α) / (b : α)⌋₊ = a / b := by
  rw [Nat.floor_div_nat ((a : α)) b, Nat.floor_natCast]

/-- The ceiling of a natural quotient computed in an ordered field is
`ceil_div`. -/
theorem ceil_div_cast (α : Type) [LinearOrderedSemifield α] [FloorSemiring α]
    (a b : ℕ) (hb : 0 < b) : ⌈(a : α) / (b : α)⌉₊ = ceil_div a b := by
  rcases Nat.eq_zero_or_pos a with rfl | ha
  · simp [ceil_div, Nat.div_eq_of_lt (show b - 1 < b by omega)]
  · have hb' : (0 : α) < b := by exact_mod_cast hb
    apply le_antisymm
    · rw [Nat.ceil_le, div_le_iff₀ hb']
      have h1 : a ≤ ceil_div a b * b := by
        have hd := Nat.div_add_mod (a + b - 1) b
        have hm := Nat.mod_lt (a + b - 1) hb
        have hc : ceil_div a b * b = b * ((a + b - 1) / b) := Nat.mul_comm _ _
        unfold ceil_div at hc ⊢
        omega
      exact_mod_cast h1
    · rcases Nat.eq_zero_or_pos (ceil_div a b) with hz | hpos
      · simp [hz]
      · obtain ⟨k, hk⟩ : ∃ k, ceil_div a b = k + 1 := ⟨ceil_div a b - 1, by omega⟩
        rw [hk]
        have hle : ceil_div a b * b ≤ a + b - 1 := Nat.div_mul_le_self _ _
        rw [hk] at hle
        have hsm : (k + 1) * b = k * b + b := Nat.succ_mul k b
        have h2 : k * b < a := by omega
        have h3 : (k : α) < (a : α) / b := by
          rw [lt_div_iff₀ hb']
          exact_mod_cast h2
        exact Nat.succ_le_of_lt (Nat.lt_ceil.2 h3)

/-- `flog2 a b` is the floor base-2 logarithm of the quotient `a / b`
taken in any ordered field with a floor structure. -/
theorem flog2_eq_int_log (α : Type) [LinearOrderedSemifield α] [FloorSemiring α]
    (a b : ℕ) (ha : 0 < a) (hb : 0 < b) :
    flog2 a b = Int.log 2 ((a : α) / (b : α)) := by
  unfold flog2
  by_cases hba : b ≤ a
  · rw [if_pos hba]
    have h1 : (1 : α) ≤ (a : α) / b := by
      rw [le_div_iff₀ (show (0 : α) < b by exact_mod_cast hb), one_mul]
      exact_mod_cast hba
    rw [Int.log_of_one_le_right _ h1, floor_div_cast α a b, nat_log2_eq]
  · rw [if_neg hba]
    push_neg at hba
    have hr1 : (a : α) / b ≤ 1 := by
      rw [div_le_one (show (0 : α) < b by exact_mod_cast hb)]
      exact_mod_cast hba.le
    rw [Int.log_of_right_le_one _ hr1, inv_div, ceil_div_cast α b a ha, nat_clog2_eq]

/-- An `ok` value of `mkUntileQuery` is the query on the given image and
zoom level. -/
theorem mkUntileQuery_ok_eq {img : TiledImage} {zl : ℤ} {q : UntileQuery}
    (h : mkUntileQuery img zl = .ok q) : q = ⟨img, zl⟩ := by
  unfold mkUntileQuery at h
  split at h
  · cases h
  · injection h with h
    exact h.symm

/-- When the result-collection loop returns a tile matrix, every submitted
task had in fact succeeded. -/
theorem gather_ok_forall {l : List ((ℕ × ℕ) × FetchOutcome)}
    {tm : List ((ℕ × ℕ) × Tile)} :
    gather l = .ok tm → ∀ p ∈ l, ∃ t, p.2 = FetchOutcome.ok t := by
  induction l generalizing tm with
  | nil =>
    intro _ p hp
    cases hp
  | cons hd tl ih =>
    obtain ⟨i, o⟩ := hd
    cases o with
    | ok t =>
      simp only [gather]
      cases hg : gather tl with
      | ok tm2 =>
        intro _ p hp
        rcases List.mem_cons.1 hp with rfl | hp
        · exact ⟨t, rfl⟩
        · exact ih hg p hp
      | blocked => intro h; cases h
      | raised e => intro h; cases h
    | failed m => intro h; cases h
    | pending => intro h; cases h

/-- The tile matrix returned by the result-collection loop has one entry
per submitted task. -/
theorem gather_ok_length {l : List ((ℕ × ℕ) × FetchOutcome)}
    {tm : List ((ℕ × ℕ) × Tile)} :
    gather l = .ok tm → tm.length = l.length := by
  induction l generalizing tm with
  | nil =>
    intro h
    cases h
    rfl
  | cons hd tl ih =>
    obtain ⟨i, o⟩ := hd
    cases o with
    | ok t =>
      simp only [gather]
      cases hg : gather tl with
      | ok tm2 =>
        intro h
        cases h
        simp [ih hg]
      | blocked => intro h; cases h
      | raised e => intro h; cases h
    | failed m => intro h; cases h
    | pending => intro h; cases h

/-- If no task is left pending and at least one failed, the
result-collection loop re-raises a fetch failure. -/
theorem gather_raises {l : List ((ℕ × ℕ) × FetchOutcome)}
    (hnp : ∀ p ∈ l, p.2 ≠ FetchOutcome.pending)
    (hf : ∃ p ∈ l, ∃ m, p.2 = FetchOutcome.failed m) :
    ∃ m, gather l = .raised (.fetchError m) := by
  induction l with
  | nil =>
    obtain ⟨p, hp, _⟩ := hf
    cases hp
  | cons hd tl ih =>
    obtain ⟨i, o⟩ := hd
    cases o with
    | ok t =>
      have hf' : ∃ p ∈ tl, ∃ m, p.2 = FetchOutcome.failed m := by
        rcases hf with ⟨p, hp, m, hm⟩
        rcases List.mem_cons.1 hp with rfl | hp
        · cases hm
        · exact ⟨p, hp, m, hm⟩
      obtain ⟨m, hm⟩ := ih (fun p hp => hnp p (List.mem_cons_of_mem _ hp)) hf'
      exact ⟨m, by simp [gather, hm]⟩
    | failed m => exact ⟨m, rfl⟩
    | pending => exact absurd rfl (hnp (i, .pending) (List.mem_cons_self _ _))

/-- The whole call reads the outcome function only at the planned grid
coordinates. -/
theorem exec_multithread_congr (q : UntileQuery) {o₁ o₂ : ℕ × ℕ → FetchOutcome}
    (h : ∀ i ∈ q.tile_indices, o₁ i = o₂ i) :
    Untiler.exec_multithread q o₁ = Untiler.exec_multithread q o₂ := by
  unfold Untiler.exec_multithread
  have hmap : (q.tiles_urls.map fun p => (p.1, o₁ p.1)) =
      q.tiles_urls.map fun p => (p.1, o₂ p.1) :=
    List.map_congr_left fun p hp => by
      rw [h p.1 (List.mem_map.2 ⟨p, hp, rfl⟩)]
  rw [hmap]

/-! Claim theorems. -/

/-- C4: requesting a zoom level strictly greater than the descriptor's
`max_zoom` raises the invalid-zoom `ValueError` during query construction,
before any fetch is attempted — the result is the error whatever the fetch
outcomes, so no partial result exists; for any zoom level at most
`max_zoom`, query construction succeeds, so no such error is raised. -/
theorem c4_invalid_zoom (img : TiledImage) (zl : ℤ) :
    (img.max_zoom < zl → ∀ outcome : ℕ × ℕ → FetchOutcome,
      Untiler.untile img zl outcome = .raised (.valueError
        ("Zoom level (" ++ toString zl ++
         ")is greater than the maximum possible zoom (" ++ toString img.max_zoom ++
         ") for this image."))) ∧
    (zl ≤ img.max_zoom → mkUntileQuery img zl = .ok ⟨img, zl⟩) := by
  constructor
  · intro h outcome
    unfold Untiler.untile mkUntileQuery
    rw [if_pos h]
  · intro h
    unfold mkUntileQuery
    rw [if_neg (not_lt.2 h)]

/-- Witness for C4 at `img1` (derived `max_zoom` is 10): zoom 12 raises
the invalid-zoom error for every outcome function; zoom 10 constructs the
query. -/
theorem c4_invalid_zoom_witness :
    (img1.max_zoom < 12 ∧
      Untiler.untile img1 12 (fun _ => .pending) = .raised (.valueError
        ("Zoom level (" ++ toString (12 : ℤ) ++
         ")is greater than the maximum possible zoom (" ++ toString img1.max_zoom ++
         ") for this image."))) ∧
    ((10 : ℤ) ≤ img1.max_zoom ∧ mkUntileQuery img1 10 = .ok ⟨img1, 10⟩) :=
  ⟨⟨by decide, (c4_invalid_zoom img1 12).1 (by decide) _⟩,
   ⟨by decide, (c4_invalid_zoom img1 10).2 (by decide)⟩⟩

/-- C7 (the code at the failing input): a single fetch task that never
completes makes the whole reconstruction block forever — after `cf.wait`'s
timeout fires, its result is discarded and `future.result()` is called
with no timeout, so the pending task is waited on indefinitely instead of
being treated as failed. -/
theorem c7_pending_fetch_blocks :
    Untiler.untile img1 10 (fun _ => .pending) = .blocked := by decide

/-- C8 (the code at the failing input): at zoom 9 both scaled dimensions
of `img1` round to zero, so `tiles_urls` fires its degenerate-grid
warning, but the reconstruction then raises `ValueError` (Python's
`max([])` on the empty tile matrix) instead of producing an empty
result. -/
theorem c8_degenerate_grid_crashes :
    (UntileQuery.mk img1 9).tiles_urls_warns = true ∧
    Untiler.untile img1 9 (fun _ => .ok t1) =
      .raised (.valueError "max() arg is an empty sequence") := by decide

/-- C10: calling `TiledImage.content` with `zoom_level = 0` is identical
to calling it with no zoom level: Python's `or` treats the falsy `0` as
absent, and the effective zoom is `max_zoom` in both cases, so zoom level
0 cannot be requested. -/
theorem c10_zoom_zero_is_default (img : TiledImage) :
    img.content_zoom (some 0) = img.content_zoom none ∧
    img.content_zoom (some 0) = img.max_zoom :=
  ⟨rfl, rfl⟩

/-- C9 (amended): the reconstruction result is a pure function of the
per-coordinate fetch outcomes — the compositing loop walks the tile matrix
in fixed submission (column-major) order, never in completion order — so
two runs whose outcomes agree on the planned grid produce identical
rasters.  (The claim's stronger premise, that a tile's paste position is
derived solely from its own coordinate, is false: see the
counterexample.) -/
theorem c9_fixed_tiles_deterministic (img : TiledImage) (zl : ℤ)
    {o₁ o₂ : ℕ × ℕ → FetchOutcome}
    (h : ∀ i ∈ (UntileQuery.mk img zl).tile_indices, o₁ i = o₂ i) :
    Untiler.untile img zl o₁ = Untiler.untile img zl o₂ := by
  unfold Untiler.untile
  cases hq : mkUntileQuery img zl with
  | error e => rfl
  | ok q =>
    have hq' := mkUntileQuery_ok_eq hq
    subst hq'
    exact exec_multithread_congr _ h

/-- Witness for C9: `outcome_allok` and `outcome_offgrid` agree on the 2×2
grid of `img2` (they differ only at the off-grid coordinate `(5,5)`) and
produce the same raster. -/
theorem c9_fixed_tiles_deterministic_witness :
    (∀ i ∈ (UntileQuery.mk img2 11).tile_indices,
      outcome_allok i = outcome_offgrid i) ∧
    Untiler.untile img2 11 outcome_allok = Untiler.untile img2 11 outcome_offgrid :=
  ⟨by decide, c9_fixed_tiles_deterministic img2 11 (by decide)⟩

/-- C9 is refuted as stated: tile `(1,0)` has identical fetch results in
two runs (`outcome_allok` vs `outcome_wider01`, which differ only in the
width of tile `(0,1)`), yet it is pasted at x = 9 in one run and x = 11 in
the other — the cursor advance uses the width of the previously composited
tile `(0,1)`, so a tile's position is not derived solely from its own
coordinate. -/
theorem c9_counterexample :
    outcome_allok (1, 0) = outcome_wider01 (1, 0) ∧
    find_op (Untiler.untile img2 11 outcome_allok) (1, 0) =
      some ⟨(1, 0), (0, 0), (9, 0), t10⟩ ∧
    find_op (Untiler.untile img2 11 outcome_wider01) (1, 0) =
      some ⟨(1, 0), (0, 0), (11, 0), t10⟩ := by decide

/-- C1 (amended): when at least one tile's fetch or decode fails (and no
task hangs forever), the reconstruction does not complete with a partial
raster: the failure is re-raised by `future.result()` and the call returns
that fetch error instead of a result. -/
theorem c1_failed_tile_aborts (img : TiledImage) (zl : ℤ)
    (outcome : ℕ × ℕ → FetchOutcome) (hz : zl ≤ img.max_zoom)
    (hnp : ∀ i ∈ (UntileQuery.mk img zl).tile_indices, outcome i ≠ .pending)
    (hf : ∃ i ∈ (UntileQuery.mk img zl).tile_indices, (outcome i).is_failed = true) :
    (Untiler.untile img zl outcome).raised_fetch = true ∧
    (Untiler.untile img zl outcome).returns_image = false := by
  have hnp' : ∀ p ∈ (UntileQuery.mk img zl).tiles_urls.map
      fun p => (p.1, outcome p.1), p.2 ≠ FetchOutcome.pending := by
    intro p hp
    rcases List.mem_map.1 hp with ⟨u, hu, rfl⟩
    exact hnp u.1 (List.mem_map.2 ⟨u, hu, rfl⟩)
  have hf' : ∃ p ∈ (UntileQuery.mk img zl).tiles_urls.map
      fun p => (p.1, outcome p.1), ∃ m, p.2 = FetchOutcome.failed m := by
    rcases hf with ⟨i, hi, hif⟩
    rcases List.mem_map.1 hi with ⟨u, hu, rfl⟩
    refine ⟨(u.1, outcome u.1), List.mem_map.2 ⟨u, hu, rfl⟩, ?_⟩
    cases ho : outcome u.1 with
    | ok t => rw [ho] at hif; cases hif
    | failed m => exact ⟨m, rfl⟩
    | pending => rw [ho] at hif; cases hif
  obtain ⟨m, hm⟩ := gather_raises hnp' hf'
  have hq : mkUntileQuery img zl = .ok ⟨img, zl⟩ := by
    unfold mkUntileQuery
    rw [if_neg (not_lt.2 hz)]
  simp only [Untiler.untile, hq, Untiler.exec_multithread, hm]
  exact ⟨rfl, rfl⟩

/-- Witness for C1 at `img2`, zoom 11, with only tile `(0,0)` failing. -/
theorem c1_failed_tile_aborts_witness :
    ((11 : ℤ) ≤ img2.max_zoom ∧
     (∀ i ∈ (UntileQuery.mk img2 11).tile_indices, outcome_one_failed i ≠ .pending) ∧
     (∃ i ∈ (UntileQuery.mk img2 11).tile_indices,
        (outcome_one_failed i).is_failed = true)) ∧
    ((Untiler.untile img2 11 outcome_one_failed).raised_fetch = true ∧
     (Untiler.untile img2 11 outcome_one_failed).returns_image = false) :=
  ⟨⟨by decide, by decide, by decide⟩,
   c1_failed_tile_aborts img2 11 outcome_one_failed (by decide) (by decide) (by decide)⟩

/-- C1 is refuted as stated: on the 2×2 grid of `img2` with only the fetch
for tile `(0,0)` failing, the reconstruction does not complete with blank
gaps — the call returns the tile's fetch error and no result. -/
theorem c1_counterexample :
    Untiler.untile img2 11 outcome_one_failed = .raised (.fetchError "boom") ∧
    (Untiler.untile img2 11 outcome_one_failed).returns_image = false := by decide

/-- When the call returns a composited raster, every submitted task
succeeded and the planned grid was nonempty. -/
theorem exec_image_all_ok {q : UntileQuery} {outcome : ℕ × ℕ → FetchOutcome}
    {c : Composited} (h : Untiler.exec_multithread q outcome = .image c) :
    (∀ p ∈ q.tiles_urls.map fun p => (p.1, outcome p.1),
      ∃ t, p.2 = FetchOutcome.ok t) ∧ q.tiles_urls ≠ [] := by
  unfold Untiler.exec_multithread at h
  split at h
  · cases h
  · cases h
  · rename_i tm hg
    split at h
    · cases h
    · rename_i mode hmode
      split at h
      · cases h
      · rename_i mr hmr
        refine ⟨gather_ok_forall hg, fun hnil => ?_⟩
        have hlen := gather_ok_length hg
        rw [hnil] at hlen
        simp only [List.map_nil, List.length_nil] at hlen
        have htm : tm = [] := List.length_eq_zero.1 hlen
        rw [htm] at hmr
        simp [max_rows_idx] at hmr

/-- C3 (amended): the caller receives only the composited raster — the
code computes no success ratio anywhere — and a raster is returned only
when every requested tile succeeded, so every value actually returned
corresponds to a spec-defined success ratio of exactly 1. -/
theorem c3_image_implies_ratio_one (img : TiledImage) (zl : ℤ)
    (outcome : ℕ × ℕ → FetchOutcome) (c : Composited)
    (h : Untiler.untile img zl outcome = .image c) :
    spec_success_ratio ⟨img, zl⟩ outcome = 1 := by
  revert h
  unfold Untiler.untile
  cases hq : mkUntileQuery img zl with
  | error e => intro h; cases h
  | ok q =>
    have hqe := mkUntileQuery_ok_eq hq
    subst hqe
    intro h
    obtain ⟨hall, hne⟩ := exec_image_all_ok h
    have hcount : (UntileQuery.mk img zl).tile_indices.countP
        (fun i => (outcome i).is_ok) =
        (UntileQuery.mk img zl).tile_indices.length := by
      apply List.countP_eq_length.2
      intro i hi
      rcases List.mem_map.1 hi with ⟨u, hu, rfl⟩
      obtain ⟨t, ht⟩ := hall (u.1, outcome u.1) (List.mem_map.2 ⟨u, hu, rfl⟩)
      simp only at ht
      rw [ht]
      rfl
    have hlen0 : (UntileQuery.mk img zl).tile_indices.length ≠ 0 := by
      simp only [UntileQuery.tile_indices, List.length_map]
      intro hl
      exact hne (List.length_eq_zero.1 hl)
    unfold spec_success_ratio
    rw [hcount, div_self (Nat.cast_ne_zero.2 hlen0)]

/-- Witness for C3: a fully successful single-tile reconstruction on
`img1` returns the raster `comp1`, and its spec success ratio is 1. -/
theorem c3_image_implies_ratio_one_witness :
    Untiler.untile img1 10 (fun _ => .ok t1) = .image comp1 ∧
    spec_success_ratio ⟨img1, 10⟩ (fun _ => .ok t1) = 1 :=
  ⟨by decide, c3_image_implies_ratio_one img1 10 _ comp1 (by decide)⟩

/-- C3 is refuted as stated: on the 1×2 grid of `img3` with tile `(0,1)`
failing, the spec-defined success ratio is 1/2 — well inside [0,1] — yet
the call returns no (raster, ratio) value at all: it raises the fetch
error, and no ratio accompanies any result the code ever returns. -/
theorem c3_counterexample :
    Untiler.untile img3 11 outcome_last_failed = .raised (.fetchError "net") ∧
    (Untiler.untile img3 11 outcome_last_failed).returns_image = false ∧
    spec_success_ratio ⟨img3, 11⟩ outcome_last_failed = 1 / 2 := by
  refine ⟨by decide, by decide, ?_⟩
  have h1 : ((⟨img3, 11⟩ : UntileQuery).tile_indices.countP
      fun i => (outcome_last_failed i).is_ok) = 1 := by decide
  have h2 : (⟨img3, 11⟩ : UntileQuery).tile_indices.length = 2 := by decide
  unfold spec_success_ratio
  rw [h1, h2]
  norm_num

/-- C6: for every descriptor with positive width, height and tile size,
the derived `max_zoom` equals `10 + floor(log2(max(width, height) /
tileSize))`, with the logarithm taken over the reals. -/
theorem c6_max_zoom_formula (img : TiledImage) (hw : 0 < img.width)
    (hh : 0 < img.height) (hts : 0 < img.tile_size) :
    img.max_zoom =
      10 + ⌊Real.logb 2 ((max img.width img.height : ℝ) / (img.tile_size : ℝ))⌋ := by
  unfold TiledImage.max_zoom
  rw [flog2_eq_int_log ℝ (max img.width img.height) img.tile_size
    (show 0 < max img.width img.height by omega) hts]
  have h2 : ((2 : ℕ) : ℝ) = (2 : ℝ) := by norm_num
  rw [← h2, Real.floor_logb_natCast (by positivity), Nat.cast_max]

/-- Witness for C6 at `img2048` (2048×1536, 256-pixel tiles):
`max_zoom = 13 = 10 + floor(log2 8)`. -/
theorem c6_max_zoom_formula_witness :
    (0 < img2048.width ∧ 0 < img2048.height ∧ 0 < img2048.tile_size) ∧
    img2048.max_zoom =
      10 + ⌊Real.logb 2 ((max img2048.width img2048.height : ℝ) / (img2048.tile_size : ℝ))⌋ :=
  ⟨⟨by decide, by decide, by decide⟩,
   c6_max_zoom_formula img2048 (by decide) (by decide) (by decide)⟩

/-- C5 (amended): for every descriptor with positive dimensions and tile
size and every zoom level at most the derived `max_zoom`, the grid plan
computes `scaledWidth = floor(width / 2^(maxZoom - zoomLevel))`,
`scaledHeight = floor(height / 2^(maxZoom - zoomLevel))`,
`columns = ceil(scaledWidth / tileSize)` and
`rows = ceil(scaledHeight / tileSize)`.  (The claim's concrete example is
wrong about `maxZoom`: see the counterexample.) -/
theorem c5_grid_formulas (img : TiledImage) (zl : ℤ) (hw : 0 < img.width)
    (hh : 0 < img.height) (hts : 0 < img.tile_size) (hzl : zl ≤ img.max_zoom) :
    (UntileQuery.mk img zl).width =
      ⌊(img.width : ℚ) / 2 ^ (img.max_zoom - zl).toNat⌋₊ ∧
    (UntileQuery.mk img zl).height =
      ⌊(img.height : ℚ) / 2 ^ (img.max_zoom - zl).toNat⌋₊ ∧
    (UntileQuery.mk img zl).n_columns =
      ⌈((UntileQuery.mk img zl).width : ℚ) / (img.tile_size : ℚ)⌉₊ ∧
    (UntileQuery.mk img zl).n_rows =
      ⌈((UntileQuery.mk img zl).height : ℚ) / (img.tile_size : ℚ)⌉₊ := by
  have hpow : ((2 : ℚ) ^ (img.max_zoom - zl).toNat) =
      ((2 ^ (img.max_zoom - zl).toNat : ℕ) : ℚ) := by norm_cast
  refine ⟨?_, ?_, ?_, ?_⟩
  · rw [hpow, floor_div_cast ℚ img.width (2 ^ (img.max_zoom - zl).toNat)]
    rfl
  · rw [hpow, floor_div_cast ℚ img.height (2 ^ (img.max_zoom - zl).toNat)]
    rfl
  · rw [ceil_div_cast ℚ (UntileQuery.mk img zl).width img.tile_size hts]
    rfl
  · rw [ceil_div_cast ℚ (UntileQuery.mk img zl).height img.tile_size hts]
    rfl

/-- Witness for C5 at `img4000` and zoom 13 (its actual `max_zoom`). -/
theorem c5_grid_formulas_witness :
    (0 < img4000.width ∧ 0 < img4000.height ∧ 0 < img4000.tile_size ∧
     (13 : ℤ) ≤ img4000.max_zoom) ∧
    ((UntileQuery.mk img4000 13).width =
      ⌊(img4000.width : ℚ) / 2 ^ (img4000.max_zoom - 13).toNat⌋₊ ∧
     (UntileQuery.mk img4000 13).height =
      ⌊(img4000.height : ℚ) / 2 ^ (img4000.max_zoom - 13).toNat⌋₊ ∧
     (UntileQuery.mk img4000 13).n_columns =
      ⌈((UntileQuery.mk img4000 13).width : ℚ) / (img4000.tile_size : ℚ)⌉₊ ∧
     (UntileQuery.mk img4000 13).n_rows =
      ⌈((UntileQuery.mk img4000 13).height : ℚ) / (img4000.tile_size : ℚ)⌉₊) :=
  ⟨⟨by decide, by decide, by decide, by decide⟩,
   c5_grid_formulas img4000 13 (by decide) (by decide) (by decide) (by decide)⟩

/-- C5 is refuted as stated on its own fixture: for `width=4000,
height=3000, tileSize=256` the derived `max_zoom` is 13, not 14, so
planning at zoom 14 raises the invalid-zoom `ValueError` rather than
yielding a grid; the example's numbers (4000×3000, 16×12) hold at zoom
13 instead. -/
theorem c5_example_counterexample :
    img4000.max_zoom = 13 ∧
    Untiler.untile img4000 14 (fun _ => .ok t10) = .raised (.valueError
      "Zoom level (14)is greater than the maximum possible zoom (13) for this image.") ∧
    (UntileQuery.mk img4000 13).width = 4000 ∧
    (UntileQuery.mk img4000 13).height = 3000 ∧
    (UntileQuery.mk img4000 13).n_columns = 16 ∧
    (UntileQuery.mk img4000 13).n_rows = 12 := by decide

/-- A sum over an empty index range is zero. -/
theorem ysum_self (o : ℤ) (f : ℕ × ℕ → Tile) (c a : ℕ) : ysum o f c a a = 0 := by
  simp [ysum]

/-- Splitting off the first row of a vertical cursor sum. -/
theorem ysum_step (o : ℤ) (f : ℕ × ℕ → Tile) (c : ℕ) {a b : ℕ} (h : a < b) :
    ysum o f c a b = ((f (c, a)).height : ℤ) - o + ysum o f c (a + 1) b := by
  unfold ysum
  have hb : b - a = (b - (a + 1)) + 1 := by omega
  rw [hb, List.range'_succ, List.map_cons, List.sum_cons]

/-- A sum over an empty column range is zero. -/
theorem xsum_self (o : ℤ) (f : ℕ × ℕ → Tile) (mr a : ℕ) : xsum o f mr a a = 0 := by
  simp [xsum]

/-- Splitting off the first column of a horizontal cursor sum. -/
theorem xsum_step (o : ℤ) (f : ℕ × ℕ → Tile) (mr : ℕ) {a b : ℕ} (h : a < b) :
    xsum o f mr a b = ((f (a, mr)).width : ℤ) - o + xsum o f mr (a + 1) b := by
  unfold xsum
  have hb : b - a = (b - (a + 1)) + 1 := by omega
  rw [hb, List.range'_succ, List.map_cons, List.sum_cons]

/-- The `max?` characterization for natural numbers. -/
theorem nat_max?_eq_some_iff {l : List ℕ} {m : ℕ} :
    l.max? = some m ↔ m ∈ l ∧ ∀ b ∈ l, b ≤ m := by
  rw [List.max?_eq_some_iff]
  · exact Nat.le_refl
  · exact fun a b => max_choice a b
  · exact fun a b c => max_le_iff

/-- Membership in the column-major coordinate grid. -/
theorem mem_gridCoords {C R : ℕ} {p : ℕ × ℕ} :
    p ∈ gridCoords C R ↔ p.1 < C ∧ p.2 < R := by
  obtain ⟨c, r⟩ := p
  simp only [gridCoords, List.mem_flatMap, List.mem_map, List.mem_range, Prod.mk.injEq]
  constructor
  · rintro ⟨col, hcol, row, hrow, hc, hr⟩
    subst hc
    subst hr
    exact ⟨hcol, hrow⟩
  · rintro ⟨hc, hr⟩
    exact ⟨c, hc, r, hr, rfl, rfl⟩

/-- `max([idx[1] for idx in tile_matrix.keys()])` on a full `C × R` grid is
`R - 1`. -/
theorem max_rows_idx_grid (C R : ℕ) (f : ℕ × ℕ → Tile) (hC : 0 < C) (hR : 0 < R) :
    max_rows_idx ((gridCoords C R).map fun i => (i, f i)) = some (R - 1) := by
  unfold max_rows_idx
  rw [List.map_map]
  apply nat_max?_eq_some_iff.2
  constructor
  · exact List.mem_map.2 ⟨(0, R - 1), mem_gridCoords.2 ⟨hC, by omega⟩, rfl⟩
  · intro b hb
    rcases List.mem_map.1 hb with ⟨i, hi, rfl⟩
    have := (mem_gridCoords.1 hi).2
    simp only [Function.comp]
    omega

/-- The result-collection loop on a list of all-successful futures. -/
theorem gather_map_ok (l : List ((ℕ × ℕ) × String)) (f : ℕ × ℕ → Tile) :
    gather (l.map fun p => (p.1, FetchOutcome.ok (f p.1))) =
      .ok (l.map fun p => (p.1, f p.1)) := by
  induction l with
  | nil => rfl
  | cons hd tl ih => simp [gather, ih]

/-- Mapping the tile payload over `tiles_urls` gives the grid map. -/
theorem tiles_urls_map (q : UntileQuery) (g : ℕ × ℕ → Tile) :
    (q.tiles_urls.map fun p => (p.1, g p.1)) =
      (gridCoords q.n_columns q.n_rows).map fun i => (i, g i) := by
  unfold UntileQuery.tiles_urls
  rw [List.map_map]
  rfl

/-- Pushing a map inside the grid's column-major structure. -/
theorem gridCoords_map {β : Type} (C R : ℕ) (g : ℕ × ℕ → β) :
    (gridCoords C R).map g =
      (List.range C).flatMap fun c => (List.range R).map fun r => g (c, r) := by
  unfold gridCoords
  rw [List.map_flatMap]
  simp only [List.map_map]
  rfl

/-- One step of the compositing loop, with the projections pre-reduced. -/
theorem compositeLoop_cons (o : ℤ) (mr : ℕ) (a b : ℕ) (t : Tile)
    (rest : List ((ℕ × ℕ) × Tile)) (cx cy : ℤ) :
    compositeLoop o mr (((a, b), t) :: rest) (cx, cy) =
      ⟨(a, b), (0, 0), (cx, cy), t⟩ ::
        compositeLoop o mr rest
          ((if b = mr then cx + (t.width : ℤ) - o else cx),
           (if b < mr then cy + (t.height : ℤ) - o else 0)) := rfl

/-- One full column of the compositing loop: rows `j` to `j + k = mr` of
column `c` are pasted at the fixed abscissa `x`, at ordinates accumulated
from the previous tiles' heights minus the overlap; the cursor then moves
to the next column (`x` advanced by the last tile's width minus the
overlap, ordinate reset to 0). -/
theorem compositeLoop_column (o : ℤ) (mr : ℕ) (f : ℕ × ℕ → Tile) (c : ℕ) :
    ∀ (k j : ℕ), j + k = mr →
    ∀ (x y : ℤ) (rest : List ((ℕ × ℕ) × Tile)),
    compositeLoop o mr
        (((List.range' j (k + 1)).map fun r => ((c, r), f (c, r))) ++ rest) (x, y) =
      ((List.range' j (k + 1)).map fun r =>
        (⟨(c, r), (0, 0), (x, y + ysum o f c j r), f (c, r)⟩ : PasteOp)) ++
      compositeLoop o mr rest (x + ((f (c, mr)).width : ℤ) - o, 0) := by
  intro k
  induction k with
  | zero =>
    intro j hj x y rest
    have hj' : j = mr := by omega
    subst hj'
    simp only [Nat.zero_add, List.range'_one, List.map_cons, List.map_nil,
      List.cons_append, List.nil_append]
    rw [compositeLoop_cons, if_pos rfl, if_neg (lt_irrefl j), ysum_self]
    simp
  | succ k ih =>
    intro j hj x y rest
    have hjne : ¬ j = mr := by omega
    have hjlt : j < mr := by omega
    rw [List.range'_succ, List.map_cons, List.cons_append, compositeLoop_cons,
      if_neg hjne, if_pos hjlt]
    rw [ih (j + 1) (by omega) x (y + ((f (c, j)).height : ℤ) - o) rest]
    rw [List.map_cons, List.cons_append]
    congr 1
    · rw [ysum_self]
      simp
    · congr 1
      apply List.map_congr_left
      intro r hr
      have hjr : j < r := by
        have := List.mem_range'_1.1 hr
        omega
      rw [ysum_step o f c hjr]
      congr 2
      ring

/-- The full compositing loop over columns `c0, …, c0 + n - 1` of a grid
whose rows run from `0` to `mr`: every tile `(c, r)` is pasted uncropped at
`(x + xsum c0 c, ysum 0 r)`. -/
theorem compositeLoop_grid (o : ℤ) (mr : ℕ) (f : ℕ × ℕ → Tile) :
    ∀ (n c0 : ℕ) (x : ℤ),
    compositeLoop o mr
        ((List.range' c0 n).flatMap fun c =>
          (List.range (mr + 1)).map fun r => ((c, r), f (c, r))) (x, 0) =
      (List.range' c0 n).flatMap fun c =>
        (List.range (mr + 1)).map fun r =>
          (⟨(c, r), (0, 0), (x + xsum o f mr c0 c, ysum o f c 0 r), f (c, r)⟩ : PasteOp) := by
  intro n
  induction n with
  | zero =>
    intro c0 x
    rfl
  | succ n ih =>
    intro c0 x
    have ih' := ih (c0 + 1) (x + ((f (c0, mr)).width : ℤ) - o)
    rw [List.range_eq_range'] at ih'
    rw [List.range'_succ, List.flatMap_cons, List.flatMap_cons]
    rw [List.range_eq_range']
    rw [compositeLoop_column o mr f c0 mr 0 (by omega) x 0 _]
    rw [ih']
    congr 1
    · apply List.map_congr_left
      intro r _
      rw [xsum_self]
      simp
    · apply List.flatMap_congr
      intro c hc
      apply List.map_congr_left
      intro r _
      have hcc : c0 < c := by
        have := List.mem_range'_1.1 hc
        omega
      rw [xsum_step o f mr hcc]
      have harr : x + ((f (c0, mr)).width : ℤ) - o + xsum o f mr (c0 + 1) c =
          x + (((f (c0, mr)).width : ℤ) - o + xsum o f mr (c0 + 1) c) := by ring
      rw [harr]

/-- A fully successful run of `__exec_multithread` produces the canvas at
the scaled dimensions and the compositing loop's operations over the full
column-major grid. -/
theorem exec_multithread_all_ok (q : UntileQuery) (f : ℕ × ℕ → Tile)
    (mode : String) (hm : MODES_FORMATS q.image.format = some mode)
    (hC : 0 < q.n_columns) (hR : 0 < q.n_rows) :
    Untiler.exec_multithread q (fun i => .ok (f i)) =
      .image ⟨mode, (q.width, q.height),
        compositeLoop (q.image.overlap : ℤ) (q.n_rows - 1)
          ((gridCoords q.n_columns q.n_rows).map fun i => (i, f i)) (0, 0)⟩ := by
  have hg : gather (q.tiles_urls.map fun p => (p.1, FetchOutcome.ok (f p.1))) =
      .ok ((gridCoords q.n_columns q.n_rows).map fun i => (i, f i)) := by
    rw [gather_map_ok q.tiles_urls f, tiles_urls_map q f]
  have hmx := max_rows_idx_grid q.n_columns q.n_rows f hC hR
  simp only [Untiler.exec_multithread, hg, hm, hmx]

/-- C2 (amended): in a fully successful reconstruction the compositing
step pastes every tile uncropped — source offset `(0, 0)`, left/top
overlap included — and tile `(c, r)` lands at the running cursor position
whose abscissa is the sum over previous columns of the width of that
column's last-row tile minus the overlap, and whose ordinate is the sum
over the previous rows of the same column of each tile's height minus the
overlap; it is not cropped by the overlap and not pasted at
`(c·tileSize, r·tileSize)` (see the counterexample). -/
theorem c2_compositing_cursor (img : TiledImage) (zl : ℤ) (f : ℕ × ℕ → Tile)
    (mode : String) (hz : zl ≤ img.max_zoom)
    (hm : MODES_FORMATS img.format = some mode)
    (hC : 0 < (UntileQuery.mk img zl).n_columns)
    (hR : 0 < (UntileQuery.mk img zl).n_rows) :
    Untiler.untile img zl (fun i => .ok (f i)) =
      .image ⟨mode,
        ((UntileQuery.mk img zl).width, (UntileQuery.mk img zl).height),
        (gridCoords (UntileQuery.mk img zl).n_columns (UntileQuery.mk img zl).n_rows).map
          fun i =>
            ⟨i, (0, 0),
             (xsum (img.overlap : ℤ) f ((UntileQuery.mk img zl).n_rows - 1) 0 i.1,
              ysum (img.overlap : ℤ) f i.1 0 i.2), f i⟩⟩ := by
  have hq : mkUntileQuery img zl = .ok ⟨img, zl⟩ := by
    unfold mkUntileQuery
    rw [if_neg (not_lt.2 hz)]
  simp only [Untiler.untile, hq]
  rw [exec_multithread_all_ok (UntileQuery.mk img zl) f mode hm hC hR]
  obtain ⟨mr, hmr⟩ : ∃ mr, (UntileQuery.mk img zl).n_rows = mr + 1 :=
    ⟨(UntileQuery.mk img zl).n_rows - 1, by omega⟩
  rw [hmr]
  simp only [Nat.add_sub_cancel]
  have hops : compositeLoop ((UntileQuery.mk img zl).image.overlap : ℤ) mr
      ((gridCoords (UntileQuery.mk img zl).n_columns (mr + 1)).map fun i => (i, f i))
      (0, 0) =
      (gridCoords (UntileQuery.mk img zl).n_columns (mr + 1)).map fun i =>
        (⟨i, (0, 0),
          (xsum (img.overlap : ℤ) f mr 0 i.1, ysum (img.overlap : ℤ) f i.1 0 i.2),
          f i⟩ : PasteOp) := by
    rw [gridCoords_map, gridCoords_map, List.range_eq_range']
    rw [compositeLoop_grid (img.overlap : ℤ) mr f]
    apply List.flatMap_congr
    intro c _
    apply List.map_congr_left
    intro r _
    rw [zero_add]
  rw [hops]

/-- Witness for C2 at `img2` (2×2 grid, overlap 1) with every tile `t10`. -/
theorem c2_compositing_cursor_witness :
    ((11 : ℤ) ≤ img2.max_zoom ∧ MODES_FORMATS img2.format = some "RGB" ∧
     0 < (UntileQuery.mk img2 11).n_columns ∧ 0 < (UntileQuery.mk img2 11).n_rows) ∧
    Untiler.untile img2 11 (fun i => .ok ((fun _ => t10) i)) =
      .image ⟨"RGB",
        ((UntileQuery.mk img2 11).width, (UntileQuery.mk img2 11).height),
        (gridCoords (UntileQuery.mk img2 11).n_columns (UntileQuery.mk img2 11).n_rows).map
          fun i =>
            ⟨i, (0, 0),
             (xsum (img2.overlap : ℤ) (fun _ => t10) ((UntileQuery.mk img2 11).n_rows - 1) 0 i.1,
              ysum (img2.overlap : ℤ) (fun _ => t10) i.1 0 i.2), (fun (_ : ℕ × ℕ) => t10) i⟩⟩ :=
  ⟨⟨by decide, by decide, by decide, by decide⟩,
   c2_compositing_cursor img2 11 (fun _ => t10) "RGB" (by decide) (by decide)
     (by decide) (by decide)⟩

/-- C2 is refuted as stated: in the all-success 2×2 reconstruction of
`img2` (overlap 1, tile size 10), tile `(1, 0)` is pasted uncropped
(source offset `(0, 0)` instead of `(overlap, 0) = (1, 0)`) at destination
`(9, 0)` instead of `(1·tileSize, 0) = (10, 0)`. -/
theorem c2_counterexample :
    Untiler.untile img2 11 outcome_allok = .image comp2 ∧
    ¬ claimedCropPaste img2 comp2 :=
  ⟨by decide, by unfold claimedCropPaste; decide⟩

end Grabs

